import Mathlib

/-!
# Smart Home Controller — shallow embedding

A shallow embedding of `src/script.js` (the core device model and the
`DeviceController` registry) and proofs of the specification's claims about it.

Modelling conventions:
* JS numbers used as adjustable-parameter values arrive through `parseInt`
  in the UI and are compared/clamped with `Math.max`/`Math.min`; they are
  modelled as `Int`.
* The device id is `Date.now() + Math.random()` (script.js line 13): the two
  environment draws are explicit inputs `now : ℕ` (milliseconds) and
  `rand : ℚ` (the `Math.random()` draw), and the id is their sum in `ℚ`.
* Wall-clock timestamps used by `logActivity` are an explicit input string.
* The activity log lives in the DOM in the source (`insertBefore` at the
  front, `removeChild(lastChild)` while length exceeds 50); it is modelled
  as a most-recent-first `List String`.
* A JS `TypeError` (reading a field of `null`) is modelled as `Option.none`.
-/

namespace SmartHome

/-- The adjustable-parameter record `{ name, value, min, max }` carried by a
`SmartDevice` (script.js lines 53-58 and the per-type table at 106-146). -/
structure AdjustableParam where
  name : String
  value : Int
  min : Int
  max : Int
deriving Repr, DecidableEq

/-- The observable state of one device: the fields set by the `Device`
constructor (script.js lines 8-14) plus the `SmartDevice` fields
(lines 50-59). -/
structure SmartDevice where
  id : ℚ
  name : String
  type : String
  powerState : Bool
  connectivity : String
  hasAdjustable : Bool
  adjustableParam : Option AdjustableParam
deriving Repr, DecidableEq

/-- The `{ success, message }` object returned by `togglePower` and
`updateAdjustable`. -/
structure Outcome where
  success : Bool
  message : String
deriving Repr, DecidableEq

/-- `new SmartDevice(name, type, hasAdjustable, adjustableParam)`
(script.js lines 8-14 and 50-59): the base constructor sets
`powerState = false`, `connectivity = "online"` and
`id = Date.now() + Math.random()` (the two draws are the explicit inputs
`now` and `rand`); the derived constructor stores `hasAdjustable` and
replaces a `null` `adjustableParam` with the `Level`/50/0/100 default
(`adjustableParam || {...}`), so the stored field is never `null`. -/
def SmartDevice.create (name type : String) (hasAdjustable : Bool)
    (adjustableParam : Option AdjustableParam) (now : ℕ) (rand : ℚ) :
    SmartDevice :=
  { id := (now : ℚ) + rand
    name := name
    type := type
    powerState := false
    connectivity := "online"
    hasAdjustable := hasAdjustable
    adjustableParam := some (adjustableParam.getD ⟨"Level", 50, 0, 100⟩) }

/-- `Device.togglePower` (script.js lines 17-26).  `SmartDevice.togglePower`
(lines 81-85) just forwards to it, so one definition serves both. -/
def togglePower (d : SmartDevice) : SmartDevice × Outcome :=
  if d.connectivity = "offline" then
    (d, { success := false, message := "Device is offline" })
  else
    let d' : SmartDevice := { d with powerState := !d.powerState }
    (d', { success := true
           message := "Device turned " ++ (if d'.powerState then "ON" else "OFF") })

/-- `Device.getStatus` (script.js lines 29-36). -/
structure Status where
  name : String
  type : String
  power : String
  connectivity : String
deriving Repr, DecidableEq

/-- `Device.getStatus` (script.js lines 29-36): a pure read. -/
def getStatus (d : SmartDevice) : Status :=
  { name := d.name
    type := d.type
    power := if d.powerState then "ON" else "OFF"
    connectivity := d.connectivity }

/-- `Device.setConnectivity` (script.js lines 39-41). -/
def setConnectivity (d : SmartDevice) (status : String) : SmartDevice :=
  { d with connectivity := status }

/-- `SmartDevice.updateAdjustable` (script.js lines 62-78): offline devices
are rejected first; otherwise the requested value is clamped by
`Math.max(min, Math.min(max, value))` and stored.  Reading
`this.adjustableParam.min` when the field is `null` would throw a
`TypeError`, modelled by `none`. -/
def updateAdjustable (d : SmartDevice) (value : Int) :
    Option (SmartDevice × Outcome) :=
  if d.connectivity = "offline" then
    some (d, { success := false, message := "Device is offline" })
  else
    match d.adjustableParam with
    | none => none
    | some p =>
      let clampedValue := max p.min (min p.max value)
      some ({ d with adjustableParam := some { p with value := clampedValue } },
            { success := true
              message := p.name ++ " set to " ++ toString clampedValue })

/-- `DeviceController` state (script.js lines 93-96 plus the DOM-resident
activity log manipulated by `logActivity`, lines 193-208): the ordered
device array and the most-recent-first log. -/
structure DeviceController where
  devices : List SmartDevice
  log : List String
deriving Repr, DecidableEq

/-- The rendered text of one log entry: `[timestamp] message`
(script.js lines 197-199, stripped of its HTML markup). -/
def mkLogEntry (timestamp message : String) : String :=
  "[" ++ timestamp ++ "] " ++ message

/-- `DeviceController.logActivity` (script.js lines 193-208): prepend the
timestamped entry (`insertBefore(entry, firstChild)`) and then drop entries
from the back while more than 50 remain (`while (length > 50) removeChild
(lastChild)`), i.e. keep the first 50. -/
def logActivity (c : DeviceController) (timestamp message : String) :
    DeviceController :=
  { c with log := (mkLogEntry timestamp message :: c.log).take 50 }

/-- The `switch (type)` of `DeviceController.addDevice` (script.js lines
106-146): the per-type default adjustable parameter, with the `default:`
branch giving `Level`/50/0/100 for `security` and any unknown type. -/
def defaultParamFor (type : String) : AdjustableParam :=
  if type = "light" then ⟨"Brightness", 50, 0, 100⟩
  else if type = "fan" then ⟨"Speed", 3, 0, 5⟩
  else if type = "ac" then ⟨"Temperature", 24, 16, 30⟩
  else if type = "thermostat" then ⟨"Temperature", 22, 16, 30⟩
  else ⟨"Level", 50, 0, 100⟩

/-- `DeviceController.addDevice` (script.js lines 99-157): compute
`hasAdjustable` from the fixed type list, select the parameter profile by
the `switch` (every branch assigns, so `adjustableParam` is never passed as
`null`), construct the `SmartDevice`, `setConnectivity`, push it onto the
array, and log. -/
def addDevice (c : DeviceController) (now : ℕ) (rand : ℚ)
    (timestamp name type connectivity : String) :
    DeviceController × SmartDevice :=
  let hasAdjustable := ["light", "fan", "ac", "thermostat"].contains type
  let adjustableParam := defaultParamFor type
  let device := setConnectivity
    (SmartDevice.create name type hasAdjustable (some adjustableParam) now rand)
    connectivity
  let c' : DeviceController := { c with devices := c.devices ++ [device] }
  (logActivity c' timestamp
      ("✅ Added new " ++ type ++ ": \"" ++ name ++ "\" (" ++ connectivity ++ ")"),
   device)

/-- `DeviceController.removeDevice` (script.js lines 160-178): `findIndex`
then `splice(index, 1)` removes the first device whose id matches, logs and
returns `true`; if no index matches the collection is untouched, nothing is
logged (only `console.error`) and the call returns `false`.
(`find?` + `eraseP` render `findIndex` + `devices[index]` + `splice`:
all three act on the first match.)  The id has already been normalised by
`parseFloat`; a failed parse is `NaN`, which matches no stored id, so it is
covered by the no-match case. -/
def removeDevice (c : DeviceController) (timestamp : String) (deviceId : ℚ) :
    DeviceController × Bool :=
  match c.devices.find? (fun d => decide (d.id = deviceId)) with
  | some device =>
    let c' : DeviceController :=
      { c with devices := c.devices.eraseP (fun d => decide (d.id = deviceId)) }
    (logActivity c' timestamp ("🗑️ Removed device: \"" ++ device.name ++ "\""),
     true)
  | none => (c, false)

/-- `DeviceController.getDevice` (script.js lines 181-185): `Array.find` on
the id; `undefined` is `none`. -/
def getDevice (c : DeviceController) (deviceId : ℚ) : Option SmartDevice :=
  c.devices.find? (fun d => decide (d.id = deviceId))

/-- `DeviceController.getAllDevices` (script.js lines 188-190). -/
def getAllDevices (c : DeviceController) : List SmartDevice :=
  c.devices

/-- A sequence of `logActivity` calls, each with its own wall-clock
timestamp and message. -/
def logMany (c : DeviceController) (msgs : List (String × String)) :
    DeviceController :=
  msgs.foldl (fun acc m => logActivity acc m.1 m.2) c

/-- The inputs of one `addDevice` call, the two environment draws included. -/
structure AddRequest where
  now : ℕ
  rand : ℚ
  timestamp : String
  name : String
  type : String
  connectivity : String
deriving Repr, DecidableEq

/-- A sequence of `addDevice` calls, returning the final controller and the
devices created, in creation order. -/
def runAdds (c : DeviceController) (reqs : List AddRequest) :
    DeviceController × List SmartDevice :=
  match reqs with
  | [] => (c, [])
  | r :: rest =>
    let s := addDevice c r.now r.rand r.timestamp r.name r.type r.connectivity
    let s' := runAdds s.1 rest
    (s'.1, s.2 :: s'.2)

/-- Modelled from the spec (§4.2 table, quoted by claim C3): the claimed
per-type adjustable-parameter profile, `security` and unknown types falling
to the default `Level` profile.  Kept separate from `defaultParamFor` so the
code's table can be compared against the spec's. -/
def specParamTable (type : String) : AdjustableParam :=
  if type = "light" then ⟨"Brightness", 50, 0, 100⟩
  else if type = "fan" then ⟨"Speed", 3, 0, 5⟩
  else if type = "ac" then ⟨"Temperature", 24, 16, 30⟩
  else if type = "thermostat" then ⟨"Temperature", 22, 16, 30⟩
  else ⟨"Level", 50, 0, 100⟩

end SmartHome

namespace SmartHome

/-! ## Concrete devices and registries used by the witnesses -/

/-- An online light, as produced by the spec's first scenario (after one
power toggle). -/
def demoLight : SmartDevice :=
  { id := 5, name := "Living Room Light", type := "light", powerState := true,
    connectivity := "online", hasAdjustable := true,
    adjustableParam := some ⟨"Brightness", 50, 0, 100⟩ }

/-- An offline thermostat, as in the spec's third scenario. -/
def demoOfflineThermostat : SmartDevice :=
  { id := 1, name := "Main Thermostat", type := "thermostat", powerState := false,
    connectivity := "offline", hasAdjustable := true,
    adjustableParam := some ⟨"Temperature", 22, 16, 30⟩ }

/-- A registry holding the two demo devices. -/
def demoRegistry : DeviceController :=
  { devices := [demoLight, demoOfflineThermostat], log := [] }

/-! ## Shared helper lemmas -/

/-- On a device that is not offline and has a parameter record,
`updateAdjustable` stores the clamped value and reports it. -/
lemma updateAdjustable_eq_of_online (d : SmartDevice) (p : AdjustableParam)
    (v : Int) (hon : d.connectivity ≠ "offline") (hp : d.adjustableParam = some p) :
    updateAdjustable d v =
      some ({ d with adjustableParam := some { p with value := max p.min (min p.max v) } },
            { success := true
              message := p.name ++ " set to " ++ toString (max p.min (min p.max v)) }) := by
  simp [updateAdjustable, hon, hp]

/-! ## Claims -/

/-- Claim C1: for every device with connectivity `"offline"`, both
`togglePower` and `updateAdjustable v` (for any requested value `v`)
return a failure outcome (`success = false` with the descriptive message
`"Device is offline"`) and leave the whole device — in particular
`powerState` and `adjustableParam.value` — exactly as it was. -/
theorem C1_offline_rejects (d : SmartDevice) (v : Int)
    (h : d.connectivity = "offline") :
    togglePower d = (d, { success := false, message := "Device is offline" }) ∧
    updateAdjustable d v
      = some (d, { success := false, message := "Device is offline" }) := by
  refine ⟨?_, ?_⟩ <;> simp [togglePower, updateAdjustable, h]

/-- Witness for C1 at the offline thermostat with requested value 25. -/
theorem C1_offline_rejects_witness :
    togglePower demoOfflineThermostat
      = (demoOfflineThermostat, { success := false, message := "Device is offline" }) ∧
    updateAdjustable demoOfflineThermostat 25
      = some (demoOfflineThermostat,
              { success := false, message := "Device is offline" }) :=
  C1_offline_rejects demoOfflineThermostat 25 rfl

/-- Claim C2: for every online device with parameter record `p` and every
requested value `v`, `updateAdjustable v` stores exactly
`clamp v = max p.min (min p.max v)` and returns success with a message
naming the parameter and the clamped value actually stored; and (for a
well-formed range `p.min ≤ p.max`) values below `min` become `min`,
values above `max` become `max`, and in-range values are stored as-is. -/
theorem C2_online_update_clamps (d : SmartDevice) (p : AdjustableParam) (v : Int)
    (hon : d.connectivity = "online") (hp : d.adjustableParam = some p) :
    updateAdjustable d v =
      some ({ d with adjustableParam := some { p with value := max p.min (min p.max v) } },
            { success := true
              message := p.name ++ " set to " ++ toString (max p.min (min p.max v)) }) ∧
    (p.min ≤ p.max →
      (v < p.min → max p.min (min p.max v) = p.min) ∧
      (p.max < v → max p.min (min p.max v) = p.max) ∧
      (p.min ≤ v → v ≤ p.max → max p.min (min p.max v) = v)) := by
  refine ⟨updateAdjustable_eq_of_online d p v (by simp [hon]) hp,
          fun hle => ⟨fun h1 => ?_, fun h2 => ?_, fun h3 h4 => ?_⟩⟩ <;> omega

/-- Witness for C2 at the online light with requested value 150: the stored
value is the clamped 100 and the message reports 100, not 150. -/
theorem C2_online_update_clamps_witness :
    updateAdjustable demoLight 150 =
      some ({ demoLight with adjustableParam := some ⟨"Brightness", 100, 0, 100⟩ },
            { success := true, message := "Brightness set to 100" }) := by
  have h := (C2_online_update_clamps demoLight ⟨"Brightness", 50, 0, 100⟩ 150 rfl rfl).1
  simpa using h

/-- Claim C3: for every type, `addDevice` returns a device with
`powerState = false` whose `adjustableParam` matches the spec's fixed
table exactly (`light` → Brightness/50/0/100, `fan` → Speed/3/0/5,
`ac` → Temperature/24/16/30, `thermostat` → Temperature/22/16/30,
`security` or any unknown type → Level/50/0/100, the unknown case falling
back to the default profile rather than failing). -/
theorem C3_addDevice_matches_table (c : DeviceController) (now : ℕ) (rand : ℚ)
    (timestamp name type connectivity : String) :
    (addDevice c now rand timestamp name type connectivity).2.powerState = false ∧
    (addDevice c now rand timestamp name type connectivity).2.adjustableParam
      = some (specParamTable type) := by
  refine ⟨rfl, ?_⟩
  simp [addDevice, SmartDevice.create, setConnectivity, defaultParamFor, specParamTable]

/-- Claim C8: calling `togglePower` twice in succession on an online device
returns it to its original `powerState`. -/
theorem C8_double_toggle_identity (d : SmartDevice)
    (h : d.connectivity = "online") :
    (togglePower (togglePower d).1).1.powerState = d.powerState := by
  simp [togglePower, h]

/-- Witness for C8 at the online light. -/
theorem C8_double_toggle_identity_witness :
    (togglePower (togglePower demoLight).1).1.powerState = demoLight.powerState :=
  C8_double_toggle_identity demoLight rfl

end SmartHome

namespace SmartHome

/-- Taking `n` of an append absorbs an inner `take n` on the right factor. -/
lemma take_append_take (n : ℕ) (A B : List String) :
    (A ++ B.take n).take n = (A ++ B).take n := by
  rw [List.take_append_eq_append_take, List.take_append_eq_append_take,
      List.take_take, Nat.min_eq_left (Nat.sub_le n A.length)]

/-- After a sequence of `logActivity` calls on a controller whose log is
within the cap, the log is the reversed entry sequence in front of the
previous log, capped at 50. -/
lemma logMany_log (msgs : List (String × String)) (c : DeviceController)
    (hc : c.log.length ≤ 50) :
    (logMany c msgs).log
      = ((msgs.map fun m => mkLogEntry m.1 m.2).reverse ++ c.log).take 50 := by
  induction msgs generalizing c with
  | nil => simp [logMany, List.take_of_length_le hc]
  | cons m ms ih =>
    have h1 : logMany c (m :: ms) = logMany (logActivity c m.1 m.2) ms := rfl
    have h2 : (logActivity c m.1 m.2).log.length ≤ 50 := by
      simp [logActivity]
    rw [h1, ih _ h2]
    simp only [logActivity, List.map_cons, List.reverse_cons, List.append_assoc,
      List.singleton_append]
    exact take_append_take 50 _ _

/-- Claim C5: `logActivity` prepends a timestamped entry to the front of the
log (most-recent-first) and the log is capped at 50 entries; after 60
sequential `logActivity` calls starting from an empty log, exactly 50
entries remain and they are the 50 most recent, newest first. -/
theorem C5_log_prepend_and_cap (c : DeviceController) (t m : String)
    (msgs : List (String × String)) (h60 : msgs.length = 60) :
    (logActivity c t m).log = (mkLogEntry t m :: c.log).take 50 ∧
    (logMany ⟨[], []⟩ msgs).log.length = 50 ∧
    (logMany ⟨[], []⟩ msgs).log
      = ((msgs.map fun p => mkLogEntry p.1 p.2).reverse).take 50 := by
  refine ⟨rfl, ?_, ?_⟩
  · rw [logMany_log _ _ (by simp)]
    simp [h60]
  · rw [logMany_log _ _ (by simp)]
    simp

/-- Witness for C5: sixty identical `logActivity` calls leave exactly the
fifty newest rendered entries. -/
theorem C5_log_prepend_and_cap_witness :
    (logMany ⟨[], []⟩ (List.replicate 60 ("10:00", "tick"))).log
      = List.replicate 50 "[10:00] tick" := by
  have h := C5_log_prepend_and_cap ⟨[], []⟩ "t" "m"
    (List.replicate 60 ("10:00", "tick")) (by simp)
  rw [h.2.2]
  simp [mkLogEntry]

/-- Claim C6: no exposed operation changes `connectivity` after
construction: `togglePower` and `updateAdjustable` preserve it, and
`addDevice` sets it from its argument at creation while appending the new
device after all existing devices, which it leaves untouched. -/
theorem C6_connectivity_immutable (d : SmartDevice) (v : Int)
    (c : DeviceController) (now : ℕ) (rand : ℚ) (ts nm ty conn : String) :
    (togglePower d).1.connectivity = d.connectivity ∧
    (∀ r, updateAdjustable d v = some r → r.1.connectivity = d.connectivity) ∧
    (addDevice c now rand ts nm ty conn).2.connectivity = conn ∧
    (addDevice c now rand ts nm ty conn).1.devices
      = c.devices ++ [(addDevice c now rand ts nm ty conn).2] := by
  refine ⟨?_, ?_, rfl, rfl⟩
  · unfold togglePower
    split <;> rfl
  · intro r hr
    unfold updateAdjustable at hr
    split at hr
    · cases hr
      rfl
    · cases hp : d.adjustableParam with
      | none => rw [hp] at hr; cases hr
      | some p => rw [hp] at hr; cases hr; rfl

/-- Witness for C6: the light keeps its connectivity through both mutating
operations, and an `addDevice` with `"offline"` creates an offline device. -/
theorem C6_connectivity_immutable_witness :
    (togglePower demoLight).1.connectivity = demoLight.connectivity ∧
    (updateAdjustable demoLight 150).map (fun r => r.1.connectivity)
      = some demoLight.connectivity ∧
    (addDevice ⟨[], []⟩ 5 0 "t" "Cam" "security" "offline").2.connectivity
      = "offline" := by
  have h := C6_connectivity_immutable demoLight 150 ⟨[], []⟩ 5 0 "t" "Cam"
    "security" "offline"
  refine ⟨h.1, ?_, h.2.2.1⟩
  exact congrArg Option.some (h.2.1 _ rfl)

end SmartHome

namespace SmartHome

/-- The id of every device created by a run of `addDevice` calls is exactly
the `Date.now() + Math.random()` draw of its own call; the registry state
plays no part. -/
lemma runAdds_ids (reqs : List AddRequest) (c : DeviceController) :
    ((runAdds c reqs).2.map SmartDevice.id)
      = reqs.map (fun r => (r.now : ℚ) + r.rand) := by
  induction reqs generalizing c with
  | nil => rfl
  | cons r rest ih =>
    simp only [runAdds, List.map_cons, ih]
    rfl

/-- Counterexample to claim C7 as stated: two `addDevice` calls whose
`Date.now()` and `Math.random()` draws repeat (5 and 1/2 both times)
create two distinct devices carrying the same id, so the ids of devices
created in one registry lifetime are not always pairwise distinct. -/
theorem C7_counterexample :
    (addDevice (addDevice ⟨[], []⟩ 5 (1/2) "t" "Lamp A" "light" "online").1
        5 (1/2) "t" "Lamp B" "light" "online").2.id
      = (addDevice ⟨[], []⟩ 5 (1/2) "t" "Lamp A" "light" "online").2.id ∧
    ¬ (((addDevice (addDevice ⟨[], []⟩ 5 (1/2) "t" "Lamp A" "light" "online").1
        5 (1/2) "t" "Lamp B" "light" "online").1.devices.map
          SmartDevice.id).Nodup) := by
  refine ⟨rfl, ?_⟩
  have hmap : ((addDevice (addDevice ⟨[], []⟩ 5 (1/2) "t" "Lamp A" "light"
      "online").1 5 (1/2) "t" "Lamp B" "light" "online").1.devices.map
        SmartDevice.id)
      = [(5 : ℚ) + 1/2, (5 : ℚ) + 1/2] := rfl
  rw [hmap]
  simp

/-- Claim C7 (amended): `addDevice` uses the `Date.now() + Math.random()`
draw as the id unchanged and the registry enforces no uniqueness, so the
ids of the devices created in a registry's lifetime are pairwise distinct
exactly when the environment draws are; in particular, whenever the draws
of a run are pairwise distinct, all created ids are pairwise distinct
(removals cannot cause reuse, since an id depends only on its call's
draw). -/
theorem C7_ids_distinct_iff_draws (c c0 : DeviceController) (now : ℕ)
    (rand : ℚ) (ts nm ty conn : String) (reqs : List AddRequest)
    (hnd : (reqs.map fun r => (r.now : ℚ) + r.rand).Nodup) :
    (addDevice c now rand ts nm ty conn).2.id = (now : ℚ) + rand ∧
    ((runAdds c0 reqs).2.map SmartDevice.id).Nodup := by
  refine ⟨rfl, ?_⟩
  rw [runAdds_ids]
  exact hnd

/-- Witness for the amended C7: a run of two creations with distinct draws
yields distinct ids. -/
theorem C7_ids_distinct_iff_draws_witness :
    (addDevice ⟨[], []⟩ 7 (1/4) "t" "L" "light" "online").2.id = 7 + (1/4 : ℚ) ∧
    ((runAdds ⟨[], []⟩
        [⟨5, 1/2, "t", "Lamp A", "light", "online"⟩,
         ⟨6, 1/3, "t", "Lamp B", "fan", "offline"⟩]).2.map
      SmartDevice.id).Nodup := by
  have hnd : (([⟨5, 1/2, "t", "Lamp A", "light", "online"⟩,
      ⟨6, 1/3, "t", "Lamp B", "fan", "offline"⟩] : List AddRequest).map
        fun r => (r.now : ℚ) + r.rand).Nodup := by
    have hm : (([⟨5, 1/2, "t", "Lamp A", "light", "online"⟩,
        ⟨6, 1/3, "t", "Lamp B", "fan", "offline"⟩] : List AddRequest).map
          fun r => (r.now : ℚ) + r.rand)
        = [(5 : ℚ) + 1/2, (6 : ℚ) + 1/3] := rfl
    rw [hm]
    simp
    norm_num
  exact C7_ids_distinct_iff_draws ⟨[], []⟩ ⟨[], []⟩ 7 (1/4) "t" "L" "light"
    "online"
    [⟨5, 1/2, "t", "Lamp A", "light", "online"⟩,
     ⟨6, 1/3, "t", "Lamp B", "fan", "offline"⟩] hnd

/-- Claim C9: every device created through `addDevice` — whatever its type,
`security` and unknown types included — carries a non-null
`adjustableParam` (types outside the adjustable list receive the
Level/50/0/100 profile with `hasAdjustable = false`), so `updateAdjustable`
is defined on it and, when the device is online, succeeds by clamping the
request into the profile's range rather than failing for lack of a
parameter record. -/
theorem C9_param_never_null (c : DeviceController) (now : ℕ) (rand : ℚ)
    (ts nm ty conn : String) (v : Int) :
    ((addDevice c now rand ts nm ty conn).2.adjustableParam).isSome = true ∧
    ((["light", "fan", "ac", "thermostat"].contains ty) = false →
      (addDevice c now rand ts nm ty conn).2.adjustableParam
          = some ⟨"Level", 50, 0, 100⟩ ∧
      (addDevice c now rand ts nm ty conn).2.hasAdjustable = false) ∧
    (conn = "online" →
      updateAdjustable (addDevice c now rand ts nm ty conn).2 v
        = some ({ (addDevice c now rand ts nm ty conn).2 with
                    adjustableParam := some { defaultParamFor ty with
                      value := max (defaultParamFor ty).min
                        (min (defaultParamFor ty).max v) } },
                { success := true
                  message := (defaultParamFor ty).name ++ " set to "
                    ++ toString (max (defaultParamFor ty).min
                        (min (defaultParamFor ty).max v)) })) := by
  refine ⟨rfl, fun hty => ⟨?_, ?_⟩, fun hconn => ?_⟩
  · have hne : ty ≠ "light" ∧ ty ≠ "fan" ∧ ty ≠ "ac" ∧ ty ≠ "thermostat" := by
      refine ⟨?_, ?_, ?_, ?_⟩ <;> rintro rfl <;> simp at hty
    have hdp : (addDevice c now rand ts nm ty conn).2.adjustableParam
        = some (defaultParamFor ty) := rfl
    rw [hdp]
    simp [defaultParamFor, hne.1, hne.2.1, hne.2.2.1, hne.2.2.2]
  · have : (addDevice c now rand ts nm ty conn).2.hasAdjustable
        = ["light", "fan", "ac", "thermostat"].contains ty := rfl
    rw [this, hty]
  · have hon : (addDevice c now rand ts nm ty conn).2.connectivity = conn := rfl
    refine updateAdjustable_eq_of_online _ _ _ ?_ rfl
    rw [hon, hconn]
    simp

/-- Witness for C9 at an online security camera with requested value 150:
the created device carries the Level profile with `hasAdjustable = false`,
and `updateAdjustable` succeeds storing the clamped 100. -/
theorem C9_param_never_null_witness :
    ((addDevice ⟨[], []⟩ 5 0 "t" "Cam" "security" "online").2.adjustableParam).isSome
      = true ∧
    (addDevice ⟨[], []⟩ 5 0 "t" "Cam" "security" "online").2.adjustableParam
      = some ⟨"Level", 50, 0, 100⟩ ∧
    (addDevice ⟨[], []⟩ 5 0 "t" "Cam" "security" "online").2.hasAdjustable
      = false ∧
    updateAdjustable (addDevice ⟨[], []⟩ 5 0 "t" "Cam" "security" "online").2 150
      = some ({ (addDevice ⟨[], []⟩ 5 0 "t" "Cam" "security" "online").2 with
                  adjustableParam := some ⟨"Level", 100, 0, 100⟩ },
              { success := true, message := "Level set to 100" }) := by
  have h := C9_param_never_null ⟨[], []⟩ 5 0 "t" "Cam" "security" "online" 150
  have h2 := h.2.1 (by decide)
  have h3 := h.2.2 rfl
  refine ⟨h.1, h2.1, h2.2, ?_⟩
  rw [h3]
  rfl

/-- Claim C10: `togglePower` and `updateAdjustable` modify at most
`powerState` and `adjustableParam.value` respectively: both preserve `id`,
`name`, `type`, `connectivity` and `hasAdjustable`; `togglePower` leaves
the whole `adjustableParam` (its value included) unchanged, and
`updateAdjustable` leaves `powerState` unchanged and preserves the
parameter's `name`, `min` and `max`. -/
theorem C10_frame_effects (d : SmartDevice) (v : Int) :
    (togglePower d).1.id = d.id ∧
    (togglePower d).1.name = d.name ∧
    (togglePower d).1.type = d.type ∧
    (togglePower d).1.connectivity = d.connectivity ∧
    (togglePower d).1.hasAdjustable = d.hasAdjustable ∧
    (togglePower d).1.adjustableParam = d.adjustableParam ∧
    (∀ r, updateAdjustable d v = some r →
      r.1.id = d.id ∧ r.1.name = d.name ∧ r.1.type = d.type ∧
      r.1.connectivity = d.connectivity ∧
      r.1.hasAdjustable = d.hasAdjustable ∧
      r.1.powerState = d.powerState ∧
      ∀ p q, d.adjustableParam = some p → r.1.adjustableParam = some q →
        q.name = p.name ∧ q.min = p.min ∧ q.max = p.max) := by
  have htp : (togglePower d).1.id = d.id ∧ (togglePower d).1.name = d.name ∧
      (togglePower d).1.type = d.type ∧
      (togglePower d).1.connectivity = d.connectivity ∧
      (togglePower d).1.hasAdjustable = d.hasAdjustable ∧
      (togglePower d).1.adjustableParam = d.adjustableParam := by
    unfold togglePower
    split <;> exact ⟨rfl, rfl, rfl, rfl, rfl, rfl⟩
  refine ⟨htp.1, htp.2.1, htp.2.2.1, htp.2.2.2.1, htp.2.2.2.2.1,
    htp.2.2.2.2.2, ?_⟩
  intro r hr
  unfold updateAdjustable at hr
  split at hr
  · cases hr
    exact ⟨rfl, rfl, rfl, rfl, rfl, rfl, fun p q hp hq => by
      rw [hp] at hq
      cases hq
      exact ⟨rfl, rfl, rfl⟩⟩
  · cases hp : d.adjustableParam with
    | none => rw [hp] at hr; cases hr
    | some p0 =>
      rw [hp] at hr
      cases hr
      refine ⟨rfl, rfl, rfl, rfl, rfl, rfl, fun p q hp' hq => ?_⟩
      cases hp'
      cases hq
      exact ⟨rfl, rfl, rfl⟩

/-- Witness for C10 at the online light with requested value 150. -/
theorem C10_frame_effects_witness :
    (togglePower demoLight).1.adjustableParam = demoLight.adjustableParam ∧
    (togglePower demoLight).1.connectivity = demoLight.connectivity ∧
    (updateAdjustable demoLight 150).map (fun r => r.1.powerState)
      = some demoLight.powerState ∧
    (updateAdjustable demoLight 150).map (fun r => r.1.name)
      = some demoLight.name := by
  have h := C10_frame_effects demoLight 150
  have h7 := h.2.2.2.2.2.2 _ rfl
  exact ⟨h.2.2.2.2.2.1, h.2.2.2.1,
    congrArg Option.some h7.2.2.2.2.2.1,
    congrArg Option.some h7.2.1⟩

end SmartHome

namespace SmartHome

/-- `Array.find` misses when no stored id matches. -/
lemma find_eq_none_of_no_id (l : List SmartDevice) (i : ℚ)
    (h : ∀ d ∈ l, d.id ≠ i) :
    l.find? (fun d => decide (d.id = i)) = none := by
  rw [List.find?_eq_none]
  intro x hx
  simpa using h x hx

/-- In a collection with pairwise-distinct ids, a member `d` with the
looked-up id splits the list as `l1 ++ d :: l2`; `find?` returns `d`,
`eraseP` removes exactly `d` keeping `l1 ++ l2` in order, and no remaining
device carries the id. -/
lemma split_of_mem_nodup (l : List SmartDevice) (i : ℚ)
    (hnd : (l.map SmartDevice.id).Nodup)
    (d : SmartDevice) (hd : d ∈ l) (hid : d.id = i) :
    ∃ l1 l2, l = l1 ++ d :: l2 ∧
      l.find? (fun x => decide (x.id = i)) = some d ∧
      l.eraseP (fun x => decide (x.id = i)) = l1 ++ l2 ∧
      (∀ x ∈ l1 ++ l2, x.id ≠ i) := by
  induction l with
  | nil => cases hd
  | cons a as ih =>
    rw [List.map_cons, List.nodup_cons] at hnd
    by_cases ha : a.id = i
    · have had : d = a := by
        rcases List.mem_cons.mp hd with h | h
        · exact h
        · exfalso
          apply hnd.1
          have hmem : d.id ∈ as.map SmartDevice.id := List.mem_map_of_mem _ h
          rwa [hid, ← ha] at hmem
      subst had
      refine ⟨[], as, by simp, ?_, ?_, ?_⟩
      · exact List.find?_cons_of_pos _ (by simpa using ha)
      · exact List.eraseP_cons_of_pos (by simpa using ha)
      · intro x hx hxid
        apply hnd.1
        have hmem : x.id ∈ as.map SmartDevice.id :=
          List.mem_map_of_mem _ (by simpa using hx)
        rwa [hxid, ← ha] at hmem
    · have hd' : d ∈ as := by
        rcases List.mem_cons.mp hd with h | h
        · exact absurd (h ▸ hid) ha
        · exact h
      obtain ⟨l1, l2, hsplit, hfind, herase, hnone⟩ := ih hnd.2 hd'
      refine ⟨a :: l1, l2, by rw [List.cons_append, hsplit], ?_, ?_, ?_⟩
      · rw [List.find?_cons_of_neg _ (by simpa using ha)]
        exact hfind
      · rw [List.eraseP_cons_of_neg (by simpa using ha), herase]
        rfl
      · intro x hx
        rcases (by simpa using hx : x = a ∨ x ∈ l1 ∨ x ∈ l2) with h | h | h
        · exact h ▸ ha
        · exact hnone x (List.mem_append.mpr (Or.inl h))
        · exact hnone x (List.mem_append.mpr (Or.inr h))

/-- Claim C4: in a registry whose device ids are pairwise distinct, removing
a present id deletes exactly that device — the collection splits as
`l1 ++ d :: l2` and becomes `l1 ++ l2`, preserving the order of the rest —
logs a removal entry, returns `true`, and a subsequent `getDevice` of the
id reports not-found; removing an absent id returns `false` without
throwing and leaves the registry (collection and log) completely
unchanged. -/
theorem C4_removeDevice_spec (c : DeviceController) (timestamp : String)
    (deviceId : ℚ) :
    ((c.devices.map SmartDevice.id).Nodup →
      ∀ d, d ∈ c.devices → d.id = deviceId →
        ∃ l1 l2, c.devices = l1 ++ d :: l2 ∧
          (removeDevice c timestamp deviceId).1.devices = l1 ++ l2 ∧
          (removeDevice c timestamp deviceId).1.log
            = (mkLogEntry timestamp ("🗑️ Removed device: \"" ++ d.name ++ "\"")
                :: c.log).take 50 ∧
          (removeDevice c timestamp deviceId).2 = true ∧
          getDevice (removeDevice c timestamp deviceId).1 deviceId = none) ∧
    ((∀ d ∈ c.devices, d.id ≠ deviceId) →
      removeDevice c timestamp deviceId = (c, false)) := by
  constructor
  · intro hnd d hd hid
    obtain ⟨l1, l2, hsplit, hfind, herase, hnone⟩ :=
      split_of_mem_nodup c.devices deviceId hnd d hd hid
    refine ⟨l1, l2, hsplit, ?_, ?_, ?_, ?_⟩ <;>
      simp [removeDevice, hfind, herase, logActivity, getDevice,
        find_eq_none_of_no_id _ _ hnone, mkLogEntry]
  · intro h
    simp [removeDevice, find_eq_none_of_no_id _ _ h]

/-- Witness for C4 on the two-device demo registry: removing the present id
5 succeeds and the id then reports not-found; removing the absent id 99
returns `false` and changes nothing. -/
theorem C4_removeDevice_spec_witness :
    (removeDevice demoRegistry "t" 5).2 = true ∧
    getDevice (removeDevice demoRegistry "t" 5).1 5 = none ∧
    removeDevice demoRegistry "t" 99 = (demoRegistry, false) := by
  obtain ⟨l1, l2, -, -, -, h4, h5⟩ :=
    (C4_removeDevice_spec demoRegistry "t" 5).1 (by decide) demoLight
      (by decide) rfl
  exact ⟨h4, h5, (C4_removeDevice_spec demoRegistry "t" 99).2 (by decide)⟩

end SmartHome
